import Mathlib

/-!
Shallow embedding of the campus second-hand trading catalog
(source file COMP2090SEF-Task1.py): user records, books, orders,
and the generic collection manager with its add and remove operations.
Numeric values (Python floats) are modelled as exact rationals, with
rounding to one decimal place done half-to-even as Python's round does.
Python exceptions are modelled with Except; methods that mutate their
object return a pair of the boolean result and the updated record.
-/

namespace Campus

/-- 10 * q rounded to the nearest integer, ties going to the even
integer, as Python's built-in round does: computed by integer
arithmetic on the numerator and denominator, with f the floor of
10 * q and r2 twice the remainder, compared against the denominator
to place the fractional part relative to one half. -/
def roundTenths (q : ℚ) : ℤ :=
  let n := q.num * 10
  let d := Int.ofNat q.den
  let f := Int.fdiv n d
  let r2 := 2 * (n - f * d)
  if r2 < d then f
  else if d < r2 then f + 1
  else if f % 2 = 0 then f else f + 1

/-- Python round(q, 1): q rounded to one decimal place, half to even. -/
def round1 (q : ℚ) : ℚ := Rat.divInt (roundTenths q) 10

/-- needle is a leading segment of hay. -/
def startsWith : List Char → List Char → Bool
  | [], _ => true
  | _ :: _, [] => false
  | a :: as, b :: bs => a == b && startsWith as bs

/-- Python substring containment: needle occurs inside hay. -/
def hasSub (needle : List Char) : List Char → Bool
  | [] => needle.isEmpty
  | c :: cs => startsWith needle (c :: cs) || hasSub needle cs

/-- The user records of the program: the base User class and its
Seller and Buyer subclasses, each carrying name, id and email, the
variants adding their own field (source lines 25-76). -/
inductive User where
  | base (name uid email : String)
  | seller (name uid email store : String)
  | buyer (name uid email addr : String)
deriving DecidableEq

/-- The stored id of a user record (attribute self._id). -/
def User.uid : User → String
  | .base _ i _ => i
  | .seller _ i _ _ => i
  | .buyer _ i _ _ => i

/-- The stored email of a user record (attribute self._email). -/
def User.email : User → String
  | .base _ _ e => e
  | .seller _ _ e _ => e
  | .buyer _ _ e _ => e

/-- Overwriting the email attribute, keeping the variant and all
other fields. -/
def User.setEmail : User → String → User
  | .base n i _, e => .base n i e
  | .seller n i _ st, e => .seller n i e st
  | .buyer n i _ a, e => .buyer n i e a

/-- get_info: the dict projection, polymorphic per variant
(source lines 33-39, 61-64, 73-76). -/
def User.get_info : User → List (String × String)
  | .base n i e => [("id", i), ("name", n), ("email", e)]
  | .seller n i e st => [("id", i), ("name", n), ("email", e), ("store", st)]
  | .buyer n i e a => [("id", i), ("name", n), ("email", e), ("shipping_address", a)]

/-- change_email (source lines 41-48): the email is overwritten iff
the new value contains the campus-domain substring. -/
def User.change_email (u : User) (new_email : String) : Bool × User :=
  if hasSub "@school.edu".toList new_email.toList then (true, u.setEmail new_email)
  else (false, u)

/-- A Book record (source lines 81-116). -/
structure Book where
  book_id : String
  title : String
  author : String
  seller_id : String
  price : ℚ
  condition : String
deriving DecidableEq

/-- Book construction (source lines 83-95): _check_price raises
ValueError on a negative price, otherwise the price is stored rounded
to one decimal place; the exception is modelled by Except.error. -/
def mkBook (book_id title author seller_id : String) (price : ℚ)
    (condition : String) : Except String Book :=
  if price < 0 then Except.error "Price can't be negative!"
  else Except.ok ⟨book_id, title, author, seller_id, round1 price, condition⟩

/-- The valid book conditions (source line 99). -/
def valid_conds : List String := ["new", "like_new", "used", "sold"]

/-- update_condition (source lines 97-105). -/
def Book.update_condition (b : Book) (new_cond : String) : Bool × Book :=
  if valid_conds.contains new_cond then (true, { b with condition := new_cond })
  else (false, b)

/-- A value of a Python details dict: a string or a number. -/
inductive Val where
  | s (x : String)
  | q (x : ℚ)
deriving DecidableEq

/-- get_book_details (source lines 107-116). -/
def Book.get_book_details (b : Book) : List (String × Val) :=
  [("id", .s b.book_id), ("title", .s b.title), ("author", .s b.author),
   ("seller", .s b.seller_id), ("price", .q b.price), ("condition", .s b.condition)]

/-- An Order record (source lines 118-150). -/
structure Order where
  order_id : String
  buyer_id : String
  book_id : String
  total : ℚ
  status : String
deriving DecidableEq

/-- Order construction (source lines 120-130): _check_price raises on
a negative total, otherwise the total is stored rounded to one decimal
place and the status is initialized to "pending"; there is no status
parameter. -/
def mkOrder (order_id buyer_id book_id : String) (total : ℚ) :
    Except String Order :=
  if total < 0 then Except.error "Order total can't be negative!"
  else Except.ok ⟨order_id, buyer_id, book_id, round1 total, "pending"⟩

/-- The valid order statuses (source line 134). -/
def valid_statuses : List String :=
  ["pending", "paid", "shipped", "completed", "cancelled"]

/-- update_status (source lines 132-140). -/
def Order.update_status (o : Order) (new_status : String) : Bool × Order :=
  if valid_statuses.contains new_status then (true, { o with status := new_status })
  else (false, o)

/-- get_order_details (source lines 142-150). -/
def Order.get_order_details (o : Order) : List (String × Val) :=
  [("id", .s o.order_id), ("buyer", .s o.buyer_id), ("book", .s o.book_id),
   ("total", .q o.total), ("status", .s o.status)]

/-- A record stored in a DataHandler: one of the three kinds. In the
source, capability probing is done with hasattr; here the kind of the
record decides each probe: get_info holds exactly of users,
get_book_details exactly of books, get_order_details exactly of
orders, the book_id attribute holds of books AND orders, and the
order_id attribute exactly of orders. -/
inductive Item where
  | user (u : User)
  | book (b : Book)
  | order (o : Order)
deriving DecidableEq

/-- A Python exception inside DataHandler.add: the ValueError raised
on a duplicate id, or the AttributeError raised when get_info is
called on a record that lacks it. -/
inductive PErr where
  | valueError (msg : String)
  | attrError (msg : String)
deriving DecidableEq

/-- The duplicate scan of add for a user item (source lines 164-168):
i.get_info()["id"] is evaluated on every stored record, raising
AttributeError on a non-user record, and ValueError on a matching
user id. -/
def userScan (uid : String) : List Item → Except PErr Unit
  | [] => Except.ok ()
  | Item.user v :: rest =>
      if v.uid == uid then Except.error (PErr.valueError ("User " ++ uid ++ " already exists"))
      else userScan uid rest
  | Item.book _ :: _ => Except.error (PErr.attrError "get_info")
  | Item.order _ :: _ => Except.error (PErr.attrError "get_info")

/-- The duplicate scan of add for a book item (source lines 169-173):
only stored records with a book_id attribute are compared, and an
Order has one, so a stored order whose book_id matches also raises. -/
def bookScan (bid : String) : List Item → Except PErr Unit
  | [] => Except.ok ()
  | Item.user _ :: rest => bookScan bid rest
  | Item.book b :: rest =>
      if b.book_id == bid then Except.error (PErr.valueError ("Book " ++ bid ++ " already exists"))
      else bookScan bid rest
  | Item.order o :: rest =>
      if o.book_id == bid then Except.error (PErr.valueError ("Book " ++ bid ++ " already exists"))
      else bookScan bid rest

/-- The duplicate scan of add for an order item (source lines
174-178): only stored records with an order_id attribute (orders)
are compared. -/
def orderScan (oid : String) : List Item → Except PErr Unit
  | [] => Except.ok ()
  | Item.user _ :: rest => orderScan oid rest
  | Item.book _ :: rest => orderScan oid rest
  | Item.order o :: rest =>
      if o.order_id == oid then Except.error (PErr.valueError ("Order " ++ oid ++ " already exists"))
      else orderScan oid rest

/-- The body of the try block of DataHandler.add (source lines
162-182): the capability-based duplicate scan followed by the append. -/
def addBody (items : List Item) (it : Item) : Except PErr (List Item) :=
  match it with
  | Item.user u =>
      match userScan u.uid items with
      | Except.ok _ => Except.ok (items ++ [it])
      | Except.error e => Except.error e
  | Item.book b =>
      match bookScan b.book_id items with
      | Except.ok _ => Except.ok (items ++ [it])
      | Except.error e => Except.error e
  | Item.order o =>
      match orderScan o.order_id items with
      | Except.ok _ => Except.ok (items ++ [it])
      | Except.error e => Except.error e

/-- DataHandler.add (source lines 160-188): the except clauses catch
every exception of the body and turn it into a false return with the
stored sequence unchanged. -/
def add (items : List Item) (it : Item) : Bool × List Item :=
  match addBody items it with
  | Except.ok l => (true, l)
  | Except.error _ => (false, items)

/-- The per-record match of DataHandler.remove (source lines
192-204): hasattr(item, "get_info") holds of users, then
hasattr(item, "book_id") holds of books and of orders, then
hasattr(item, "order_id") holds of orders. -/
def matchesRemove (it : Item) (item_id : String) : Bool :=
  match it with
  | Item.user u => u.uid == item_id
  | Item.book b => b.book_id == item_id
  | Item.order o => o.book_id == item_id || o.order_id == item_id

/-- DataHandler.remove (source lines 190-206): linear scan in
insertion order, deleting the first matching record. -/
def remove (item_id : String) : List Item → Bool × List Item
  | [] => (false, [])
  | i :: rest =>
      if matchesRemove i item_id then (true, rest)
      else
        let r := remove item_id rest
        (r.1, i :: r.2)

/-- The identity of a record under the capability-based extraction of
the specification: get_info for users, the book identifier for books,
the order identifier for orders. -/
def extractedId : Item → String
  | Item.user u => u.uid
  | Item.book b => b.book_id
  | Item.order o => o.order_id

/-- The three record kinds. -/
inductive Kind where
  | user
  | book
  | order
deriving DecidableEq

/-- The kind of a record. -/
def kindOf : Item → Kind
  | Item.user _ => Kind.user
  | Item.book _ => Kind.book
  | Item.order _ => Kind.order

/-- All stored records are of kind K. -/
def homog (K : Kind) (items : List Item) : Prop := ∀ j ∈ items, kindOf j = K

/-- The extracted ids of the stored records are pairwise distinct. -/
def distinctIds (items : List Item) : Prop := (items.map extractedId).Nodup

/-- One manager operation: an add of a record or a remove by id. -/
inductive Op where
  | add (it : Item)
  | remove (id : String)

/-- The state after one manager operation. -/
def step (items : List Item) : Op → List Item
  | Op.add it => (add items it).2
  | Op.remove id => (remove id items).2

/-- The state reached from the empty manager by a sequence of
operations. -/
def run (ops : List Op) : List Item := ops.foldl step []

/-- An operation respects kind K when, if it is an add, the added
record is of kind K; removes always respect K. -/
def opRespects (K : Kind) : Op → Bool
  | Op.add it => kindOf it == K
  | Op.remove _ => true

end Campus

deriving instance DecidableEq for Except

namespace Campus

/-- Claim C3: Book construction raises a validation error if and only
if the given price is negative, and Order construction raises a
validation error if and only if the given total is negative; in the
error case no record is produced. -/
theorem C3_construction_validation (bid t a s cond : String) (p : ℚ)
    (oid byid bkid : String) (tot : ℚ) :
    ((∃ b, mkBook bid t a s p cond = Except.ok b) ↔ 0 ≤ p) ∧
    (p < 0 → mkBook bid t a s p cond = Except.error "Price can't be negative!") ∧
    ((∃ o, mkOrder oid byid bkid tot = Except.ok o) ↔ 0 ≤ tot) ∧
    (tot < 0 → mkOrder oid byid bkid tot = Except.error "Order total can't be negative!") := by
  refine ⟨?_, ?_, ?_, ?_⟩
  · by_cases hp : p < 0
    · simp [mkBook, hp, not_le.mpr hp]
    · simp [mkBook, hp, not_lt.mp hp]
  · intro hp
    simp [mkBook, hp]
  · by_cases ht : tot < 0
    · simp [mkOrder, ht, not_le.mpr ht]
    · simp [mkOrder, ht, not_lt.mp ht]
  · intro ht
    simp [mkOrder, ht]

/-- Witness for C3 at a valid book price and a negative order total. -/
theorem C3_construction_validation_witness :
    (∃ b, mkBook "BK001" "Python Basics" "John Smith" "S001" (Rat.divInt 199 10) "like_new" = Except.ok b) ∧
    mkOrder "OD001" "B001" "BK001" (-1) = Except.error "Order total can't be negative!" :=
  ⟨(C3_construction_validation "BK001" "Python Basics" "John Smith" "S001" "like_new" (Rat.divInt 199 10)
      "OD001" "B001" "BK001" (-1)).1.mpr (by decide),
   (C3_construction_validation "BK001" "Python Basics" "John Smith" "S001" "like_new" (Rat.divInt 199 10)
      "OD001" "B001" "BK001" (-1)).2.2.2 (by decide)⟩

/-- Claim C4: for every successfully constructed Order the status
field immediately after construction equals "pending", regardless of
all constructor arguments; the constructor takes no status input. -/
theorem C4_status_pending (oid byid bkid : String) (t : ℚ) (h : 0 ≤ t) :
    ∃ o, mkOrder oid byid bkid t = Except.ok o ∧ o.status = "pending" :=
  ⟨⟨oid, byid, bkid, round1 t, "pending"⟩, by simp [mkOrder, not_lt.mpr h], rfl⟩

/-- Witness for C4 at the driver's sample order. -/
theorem C4_status_pending_witness :
    ∃ o, mkOrder "OD001" "B001" "BK001" (Rat.divInt 199 10) = Except.ok o ∧
      o.status = "pending" :=
  C4_status_pending "OD001" "B001" "BK001" (Rat.divInt 199 10) (by decide)

/-- Claim C5: update_condition succeeds, returning true and setting
the condition, exactly on the four valid conditions, and otherwise
returns false leaving the Book unchanged; update_status likewise over
the five valid statuses. -/
theorem C5_guarded_updates (b : Book) (c : String) (o : Order) (s : String) :
    (c ∈ valid_conds → b.update_condition c = (true, { b with condition := c })) ∧
    (c ∉ valid_conds → b.update_condition c = (false, b)) ∧
    (s ∈ valid_statuses → o.update_status s = (true, { o with status := s })) ∧
    (s ∉ valid_statuses → o.update_status s = (false, o)) := by
  refine ⟨?_, ?_, ?_, ?_⟩ <;> intro h <;>
    simp [Book.update_condition, Order.update_status, List.contains, List.elem_iff, h]

/-- Witness for C5: a valid condition update and an invalid status
update at concrete records. -/
theorem C5_guarded_updates_witness :
    Book.update_condition ⟨"BK001", "Python Basics", "John Smith", "S001", 10, "like_new"⟩ "sold"
      = (true, ⟨"BK001", "Python Basics", "John Smith", "S001", 10, "sold"⟩) ∧
    Order.update_status ⟨"OD001", "B001", "BK001", 10, "pending"⟩ "refunded"
      = (false, ⟨"OD001", "B001", "BK001", 10, "pending"⟩) :=
  ⟨(C5_guarded_updates ⟨"BK001", "Python Basics", "John Smith", "S001", 10, "like_new"⟩ "sold"
      ⟨"OD001", "B001", "BK001", 10, "pending"⟩ "refunded").1 (by decide),
   (C5_guarded_updates ⟨"BK001", "Python Basics", "John Smith", "S001", 10, "like_new"⟩ "sold"
      ⟨"OD001", "B001", "BK001", 10, "pending"⟩ "refunded").2.2.2 (by decide)⟩

/-- Claim C6: change_email succeeds, setting the stored email so that
get_info reports it, exactly when the new value contains the
campus-domain substring, and otherwise returns false leaving the
record entirely unchanged; this holds for every user variant. -/
theorem C6_change_email (u : User) (e : String) :
    (hasSub "@school.edu".toList e.toList = true →
      u.change_email e = (true, u.setEmail e) ∧
      (User.get_info (u.change_email e).2).lookup "email" = some e) ∧
    (hasSub "@school.edu".toList e.toList = false →
      u.change_email e = (false, u)) := by
  constructor <;> intro h <;> cases u <;>
    simp_all [User.change_email, User.setEmail, User.get_info, List.lookup]

/-- Witness for C6: the driver's buyer updates to a campus address. -/
theorem C6_change_email_witness :
    User.change_email (User.buyer "Ben" "B001" "ben@school.edu" "Dorm 5, Room 102") "ben_new@school.edu"
      = (true, User.buyer "Ben" "B001" "ben_new@school.edu" "Dorm 5, Room 102") ∧
    (User.get_info (User.change_email (User.buyer "Ben" "B001" "ben@school.edu" "Dorm 5, Room 102") "ben_new@school.edu").2).lookup "email"
      = some "ben_new@school.edu" :=
  (C6_change_email (User.buyer "Ben" "B001" "ben@school.edu" "Dorm 5, Room 102") "ben_new@school.edu").1 (by decide)

/-- Claim C7: for every non-negative price the stored book price, as
reported by get_book_details, is the price rounded to one decimal
place, and likewise for a non-negative order total. -/
theorem C7_rounding (bid t a s cond : String) (p : ℚ) (hp : 0 ≤ p)
    (oid byid bkid : String) (tot : ℚ) (ht : 0 ≤ tot) :
    (∃ b, mkBook bid t a s p cond = Except.ok b ∧
      (Book.get_book_details b).lookup "price" = some (Val.q (round1 p))) ∧
    (∃ o, mkOrder oid byid bkid tot = Except.ok o ∧
      (Order.get_order_details o).lookup "total" = some (Val.q (round1 tot))) := by
  constructor
  · exact ⟨⟨bid, t, a, s, round1 p, cond⟩, by simp [mkBook, not_lt.mpr hp],
      by simp [Book.get_book_details, List.lookup]⟩
  · exact ⟨⟨oid, byid, bkid, round1 tot, "pending"⟩, by simp [mkOrder, not_lt.mpr ht],
      by simp [Order.get_order_details, List.lookup]⟩

/-- Witness for C7 at the driver's sample price 19.9, which is left
unchanged by rounding to one decimal place. -/
theorem C7_rounding_witness :
    ((∃ b, mkBook "BK001" "Python Basics" "John Smith" "S001" (Rat.divInt 199 10) "like_new" = Except.ok b ∧
      (Book.get_book_details b).lookup "price" = some (Val.q (round1 (Rat.divInt 199 10)))) ∧
    (∃ o, mkOrder "OD001" "B001" "BK001" (Rat.divInt 199 10) = Except.ok o ∧
      (Order.get_order_details o).lookup "total" = some (Val.q (round1 (Rat.divInt 199 10))))) ∧
    round1 (Rat.divInt 199 10) = Rat.divInt 199 10 :=
  ⟨C7_rounding "BK001" "Python Basics" "John Smith" "S001" "like_new" (Rat.divInt 199 10) (by decide)
      "OD001" "B001" "BK001" (Rat.divInt 199 10) (by decide),
   by decide⟩

/-- Claim C10: Book construction performs no validation of the
condition argument: for every string, construction with a
non-negative price succeeds and get_book_details reports the
condition verbatim. -/
theorem C10_condition_unchecked (bid t a s cond : String) (p : ℚ) (hp : 0 ≤ p) :
    ∃ b, mkBook bid t a s p cond = Except.ok b ∧
      (Book.get_book_details b).lookup "condition" = some (Val.s cond) :=
  ⟨⟨bid, t, a, s, round1 p, cond⟩, by simp [mkBook, not_lt.mpr hp],
    by simp [Book.get_book_details, List.lookup]⟩

/-- Witness for C10 at a condition string outside the valid set. -/
theorem C10_condition_unchecked_witness :
    ∃ b, mkBook "BK002" "t" "a" "S001" 10 "definitely_not_a_condition" = Except.ok b ∧
      (Book.get_book_details b).lookup "condition" = some (Val.s "definitely_not_a_condition") :=
  C10_condition_unchecked "BK002" "t" "a" "S001" "definitely_not_a_condition" 10 (by decide)

/-- Over an all-user sequence, the user duplicate scan succeeds
exactly when no stored record's extracted id equals the given id. -/
lemma userScan_ok_iff (uid : String) (items : List Item)
    (h : ∀ j ∈ items, kindOf j = Kind.user) :
    userScan uid items = Except.ok () ↔ ∀ j ∈ items, extractedId j ≠ uid := by
  induction items with
  | nil => simp [userScan]
  | cons i rest ih =>
    have h1 : kindOf i = Kind.user := h i (by simp)
    have h2 : ∀ j ∈ rest, kindOf j = Kind.user := fun j hj => h j (by simp [hj])
    cases i with
    | user v =>
      by_cases hv : v.uid = uid
      · simp [userScan, hv, extractedId]
      · simp [userScan, hv, extractedId, ih h2]
    | book b => simp [kindOf] at h1
    | order o => simp [kindOf] at h1

/-- Over an all-book sequence, the book duplicate scan succeeds
exactly when no stored record's extracted id equals the given id. -/
lemma bookScan_ok_iff (bid : String) (items : List Item)
    (h : ∀ j ∈ items, kindOf j = Kind.book) :
    bookScan bid items = Except.ok () ↔ ∀ j ∈ items, extractedId j ≠ bid := by
  induction items with
  | nil => simp [bookScan]
  | cons i rest ih =>
    have h1 : kindOf i = Kind.book := h i (by simp)
    have h2 : ∀ j ∈ rest, kindOf j = Kind.book := fun j hj => h j (by simp [hj])
    cases i with
    | book b =>
      by_cases hb : b.book_id = bid
      · simp [bookScan, hb, extractedId]
      · simp [bookScan, hb, extractedId, ih h2]
    | user v => simp [kindOf] at h1
    | order o => simp [kindOf] at h1

/-- Over an all-order sequence, the order duplicate scan succeeds
exactly when no stored record's extracted id equals the given id. -/
lemma orderScan_ok_iff (oid : String) (items : List Item)
    (h : ∀ j ∈ items, kindOf j = Kind.order) :
    orderScan oid items = Except.ok () ↔ ∀ j ∈ items, extractedId j ≠ oid := by
  induction items with
  | nil => simp [orderScan]
  | cons i rest ih =>
    have h1 : kindOf i = Kind.order := h i (by simp)
    have h2 : ∀ j ∈ rest, kindOf j = Kind.order := fun j hj => h j (by simp [hj])
    cases i with
    | order o =>
      by_cases ho : o.order_id = oid
      · simp [orderScan, ho, extractedId]
      · simp [orderScan, ho, extractedId, ih h2]
    | user v => simp [kindOf] at h1
    | book b => simp [kindOf] at h1

/-- Claim C1, as stated over every manager state, is false: a manager
holding only a book rejects a user whose extracted id matches no
stored record, because the duplicate scan calls get_info on the
stored book and the resulting AttributeError is converted to a false
return. -/
theorem C1_counterexample :
    add [Item.book ⟨"BK001", "Python Basics", "John Smith", "S001", 10, "like_new"⟩]
        (Item.user (User.base "Anna" "S001" "anna@school.edu"))
      = (false, [Item.book ⟨"BK001", "Python Basics", "John Smith", "S001", 10, "like_new"⟩]) ∧
    extractedId (Item.book ⟨"BK001", "Python Basics", "John Smith", "S001", 10, "like_new"⟩)
      ≠ extractedId (Item.user (User.base "Anna" "S001" "anna@school.edu")) := by
  decide

/-- Claim C1 amended: over a manager state whose stored records are
all of the same kind as the added item, add rejects a duplicate
extracted id returning false with the sequence unchanged, and
otherwise appends at the end returning true. -/
theorem C1_add_duplicate_rule (items : List Item) (it : Item)
    (h : ∀ j ∈ items, kindOf j = kindOf it) :
    ((∃ j ∈ items, extractedId j = extractedId it) → add items it = (false, items)) ∧
    ((∀ j ∈ items, extractedId j ≠ extractedId it) → add items it = (true, items ++ [it])) := by
  cases it with
  | user u =>
    have key := userScan_ok_iff u.uid items (fun j hj => h j hj)
    constructor
    · rintro ⟨j, hj, hid⟩
      cases hs : userScan u.uid items with
      | ok v =>
        cases v
        exact absurd hid (key.mp hs j hj)
      | error e => simp [add, addBody, hs]
    · intro hall
      have hok : userScan u.uid items = Except.ok () :=
        key.mpr fun j hj => hall j hj
      simp [add, addBody, hok]
  | book b =>
    have key := bookScan_ok_iff b.book_id items (fun j hj => h j hj)
    constructor
    · rintro ⟨j, hj, hid⟩
      cases hs : bookScan b.book_id items with
      | ok v =>
        cases v
        exact absurd hid (key.mp hs j hj)
      | error e => simp [add, addBody, hs]
    · intro hall
      have hok : bookScan b.book_id items = Except.ok () :=
        key.mpr fun j hj => hall j hj
      simp [add, addBody, hok]
  | order o =>
    have key := orderScan_ok_iff o.order_id items (fun j hj => h j hj)
    constructor
    · rintro ⟨j, hj, hid⟩
      cases hs : orderScan o.order_id items with
      | ok v =>
        cases v
        exact absurd hid (key.mp hs j hj)
      | error e => simp [add, addBody, hs]
    · intro hall
      have hok : orderScan o.order_id items = Except.ok () :=
        key.mpr fun j hj => hall j hj
      simp [add, addBody, hok]

/-- Witness for amended C1: a fresh user is appended, a duplicate
user id is rejected with the sequence unchanged. -/
theorem C1_add_duplicate_rule_witness :
    add [Item.user (User.seller "Anna" "S001" "anna@school.edu" "Shop")]
        (Item.user (User.buyer "Ben" "B001" "ben@school.edu" "Dorm 5"))
      = (true, [Item.user (User.seller "Anna" "S001" "anna@school.edu" "Shop"),
                Item.user (User.buyer "Ben" "B001" "ben@school.edu" "Dorm 5")]) ∧
    add [Item.user (User.seller "Anna" "S001" "anna@school.edu" "Shop")]
        (Item.user (User.base "Eve" "S001" "eve@school.edu"))
      = (false, [Item.user (User.seller "Anna" "S001" "anna@school.edu" "Shop")]) :=
  ⟨(C1_add_duplicate_rule [Item.user (User.seller "Anna" "S001" "anna@school.edu" "Shop")]
      (Item.user (User.buyer "Ben" "B001" "ben@school.edu" "Dorm 5")) (by decide)).2 (by decide),
   (C1_add_duplicate_rule [Item.user (User.seller "Anna" "S001" "anna@school.edu" "Shop")]
      (Item.user (User.base "Eve" "S001" "eve@school.edu")) (by decide)).1 (by decide)⟩

/-- Claim C2, as stated, is false: remove matches an order through
the hasattr book_id branch, so an order is removed, with a true
return, by an id that is the extracted id of no stored record. -/
theorem C2_counterexample :
    remove "BK001" [Item.order ⟨"OD001", "B001", "BK001", 10, "pending"⟩]
      = (true, []) ∧
    extractedId (Item.order ⟨"OD001", "B001", "BK001", 10, "pending"⟩) ≠ "BK001" := by
  decide

/-- Claim C2 amended: remove deletes exactly the first record, in
insertion order, that matches the given id, where a user matches by
its id, a book by its book_id, and an order by its book_id or its
order_id (the book-like attribute probe matches orders too), leaving
the other records in relative order and returning true; if no record
matches, it returns false with the sequence unchanged. -/
theorem C2_remove_first_match (item_id : String) (items : List Item) :
    (∃ pre i post, items = pre ++ i :: post ∧
        (∀ j ∈ pre, matchesRemove j item_id = false) ∧
        matchesRemove i item_id = true ∧
        remove item_id items = (true, pre ++ post)) ∨
    ((∀ j ∈ items, matchesRemove j item_id = false) ∧
        remove item_id items = (false, items)) := by
  induction items with
  | nil => exact Or.inr ⟨by simp, rfl⟩
  | cons i rest ih =>
    by_cases hi : matchesRemove i item_id = true
    · exact Or.inl ⟨[], i, rest, rfl, by simp, hi, by simp [remove, hi]⟩
    · have hi' : matchesRemove i item_id = false := by simpa using hi
      rcases ih with ⟨pre, j, post, heq, hpre, hj, hrem⟩ | ⟨hall, hrem⟩
      · refine Or.inl ⟨i :: pre, j, post, by simp [heq], ?_, hj, ?_⟩
        · intro k hk
          rcases List.mem_cons.mp hk with rfl | hk
          · exact hi'
          · exact hpre k hk
        · simp [remove, hi', hrem]
      · refine Or.inr ⟨?_, ?_⟩
        · intro k hk
          rcases List.mem_cons.mp hk with rfl | hk
          · exact hi'
          · exact hall k hk
        · simp [remove, hi', hrem]

/-- Witness for amended C2 at the spec's removal example: the first
matching record of [A(id 1), B(id 2)] for id 2 is B. -/
theorem C2_remove_first_match_witness :
    (∃ pre i post,
        [Item.user (User.base "A" "1" "a@school.edu"), Item.user (User.base "B" "2" "b@school.edu")]
          = pre ++ i :: post ∧
        (∀ j ∈ pre, matchesRemove j "2" = false) ∧
        matchesRemove i "2" = true ∧
        remove "2" [Item.user (User.base "A" "1" "a@school.edu"), Item.user (User.base "B" "2" "b@school.edu")]
          = (true, pre ++ post)) ∨
    ((∀ j ∈ [Item.user (User.base "A" "1" "a@school.edu"), Item.user (User.base "B" "2" "b@school.edu")],
        matchesRemove j "2" = false) ∧
      remove "2" [Item.user (User.base "A" "1" "a@school.edu"), Item.user (User.base "B" "2" "b@school.edu")]
        = (false, [Item.user (User.base "A" "1" "a@school.edu"), Item.user (User.base "B" "2" "b@school.edu")])) :=
  C2_remove_first_match "2"
    [Item.user (User.base "A" "1" "a@school.edu"), Item.user (User.base "B" "2" "b@school.edu")]

/-- Claim C8: every exception raised inside the body of add is caught
at the add boundary and converted into a false return with the stored
sequence unchanged; add itself is a total function and never
propagates an exception. -/
theorem C8_add_catches (items : List Item) (it : Item) (e : PErr)
    (h : addBody items it = Except.error e) : add items it = (false, items) := by
  simp [add, h]

/-- Witness for C8: adding a user to a manager holding a book raises
AttributeError in the duplicate scan, which add converts to false. -/
theorem C8_add_catches_witness :
    addBody [Item.book ⟨"BK001", "Python Basics", "John Smith", "S001", 10, "like_new"⟩]
        (Item.user (User.base "Anna" "S001" "anna@school.edu"))
      = Except.error (PErr.attrError "get_info") ∧
    add [Item.book ⟨"BK001", "Python Basics", "John Smith", "S001", 10, "like_new"⟩]
        (Item.user (User.base "Anna" "S001" "anna@school.edu"))
      = (false, [Item.book ⟨"BK001", "Python Basics", "John Smith", "S001", 10, "like_new"⟩]) :=
  ⟨by decide,
   C8_add_catches [Item.book ⟨"BK001", "Python Basics", "John Smith", "S001", 10, "like_new"⟩]
     (Item.user (User.base "Anna" "S001" "anna@school.edu"))
     (PErr.attrError "get_info") (by decide)⟩

/-- Appending a fresh element preserves Nodup. -/
lemma nodup_append_singleton {α : Type} {l : List α} {a : α}
    (h : l.Nodup) (ha : a ∉ l) : (l ++ [a]).Nodup := by
  simp [List.nodup_append, h, ha]

/-- The sequence after a remove is a sublist of the one before. -/
lemma remove_sublist (item_id : String) (items : List Item) :
    (remove item_id items).2.Sublist items := by
  induction items with
  | nil => simp [remove]
  | cons i rest ih =>
    by_cases hi : matchesRemove i item_id = true
    · simp [remove, hi]
    · have hi' : matchesRemove i item_id = false := by simpa using hi
      simpa [remove, hi'] using ih.cons₂ i

/-- Over a homogeneous state of the item's kind, add preserves
homogeneity and distinctness of the extracted ids. -/
lemma add_inv (K : Kind) (items : List Item) (it : Item)
    (h1 : ∀ j ∈ items, kindOf j = K) (h2 : kindOf it = K)
    (h3 : (items.map extractedId).Nodup) :
    (∀ j ∈ (add items it).2, kindOf j = K) ∧
      ((add items it).2.map extractedId).Nodup := by
  have happend : ∀ fresh : (∀ j ∈ items, extractedId j ≠ extractedId it),
      (∀ j ∈ items ++ [it], kindOf j = K) ∧
        (((items ++ [it]).map extractedId).Nodup) := by
    intro fresh
    constructor
    · intro j hj
      rcases List.mem_append.mp hj with hj | hj
      · exact h1 j hj
      · simp at hj
        subst hj
        exact h2
    · rw [List.map_append]
      refine nodup_append_singleton h3 ?_
      intro hmem
      rcases List.mem_map.mp hmem with ⟨j, hj, hje⟩
      exact fresh j hj hje
  cases it with
  | user u =>
    have hK : Kind.user = K := h2
    cases hs : userScan u.uid items with
    | error e =>
      simpa [add, addBody, hs] using ⟨h1, h3⟩
    | ok v =>
      cases v
      have fresh := (userScan_ok_iff u.uid items (fun j hj => (h1 j hj).trans hK.symm)).mp hs
      simpa [add, addBody, hs] using happend fresh
  | book b =>
    have hK : Kind.book = K := h2
    cases hs : bookScan b.book_id items with
    | error e =>
      simpa [add, addBody, hs] using ⟨h1, h3⟩
    | ok v =>
      cases v
      have fresh := (bookScan_ok_iff b.book_id items (fun j hj => (h1 j hj).trans hK.symm)).mp hs
      simpa [add, addBody, hs] using happend fresh
  | order o =>
    have hK : Kind.order = K := h2
    cases hs : orderScan o.order_id items with
    | error e =>
      simpa [add, addBody, hs] using ⟨h1, h3⟩
    | ok v =>
      cases v
      have fresh := (orderScan_ok_iff o.order_id items (fun j hj => (h1 j hj).trans hK.symm)).mp hs
      simpa [add, addBody, hs] using happend fresh

/-- Remove preserves homogeneity and distinctness of extracted ids. -/
lemma remove_inv (K : Kind) (items : List Item) (item_id : String)
    (h1 : ∀ j ∈ items, kindOf j = K)
    (h3 : (items.map extractedId).Nodup) :
    (∀ j ∈ (remove item_id items).2, kindOf j = K) ∧
      ((remove item_id items).2.map extractedId).Nodup := by
  have hsub := remove_sublist item_id items
  exact ⟨fun j hj => h1 j (hsub.subset hj), h3.sublist (hsub.map extractedId)⟩

/-- Every state reachable by K-respecting operations from a
homogeneous state with distinct extracted ids again has both
properties. -/
lemma run_inv (K : Kind) (ops : List Op) : ∀ items : List Item,
    (∀ j ∈ items, kindOf j = K) → (items.map extractedId).Nodup →
    (∀ op ∈ ops, opRespects K op = true) →
    (∀ j ∈ List.foldl step items ops, kindOf j = K) ∧
      ((List.foldl step items ops).map extractedId).Nodup := by
  induction ops with
  | nil =>
    intro items h1 h3 _
    exact ⟨h1, h3⟩
  | cons op rest ih =>
    intro items h1 h3 hops
    have hstep : (∀ j ∈ step items op, kindOf j = K) ∧
        ((step items op).map extractedId).Nodup := by
      cases op with
      | add it =>
        have hK : kindOf it = K := by
          have := hops (Op.add it) (by simp)
          simpa [opRespects] using this
        exact add_inv K items it h1 hK h3
      | remove id => exact remove_inv K items id h1 h3
    rw [List.foldl_cons]
    exact ih (step items op) hstep.1 hstep.2 (fun o ho => hops o (by simp [ho]))

/-- Claim C9: for a manager of one record kind, every state reachable
from the empty manager by adds of that kind and removes has
pairwise-distinct extracted ids, and both add and remove preserve
homogeneity together with that distinctness. -/
theorem C9_distinct_ids (K : Kind) (ops : List Op)
    (h : ∀ op ∈ ops, opRespects K op = true) :
    (homog K (run ops) ∧ distinctIds (run ops)) ∧
    (∀ items it, homog K items → kindOf it = K → distinctIds items →
      homog K (add items it).2 ∧ distinctIds (add items it).2) ∧
    (∀ items item_id, homog K items → distinctIds items →
      homog K (remove item_id items).2 ∧ distinctIds (remove item_id items).2) := by
  refine ⟨?_, ?_, ?_⟩
  · have := run_inv K ops [] (by simp) (by simp) h
    exact ⟨this.1, this.2⟩
  · intro items it h1 h2 h3
    have := add_inv K items it h1 h2 h3
    exact ⟨this.1, this.2⟩
  · intro items item_id h1 h3
    have := remove_inv K items item_id h1 h3
    exact ⟨this.1, this.2⟩

/-- Witness for C9: a book manager run with a duplicate add and a
remove, all operations being book adds or removes. -/
theorem C9_distinct_ids_witness :
    (homog Kind.book (run [Op.add (Item.book ⟨"BK001", "t", "a", "S001", 10, "new"⟩),
        Op.add (Item.book ⟨"BK001", "u", "b", "S002", 12, "used"⟩),
        Op.add (Item.book ⟨"BK002", "v", "c", "S001", 15, "used"⟩),
        Op.remove "BK001"]) ∧
      distinctIds (run [Op.add (Item.book ⟨"BK001", "t", "a", "S001", 10, "new"⟩),
        Op.add (Item.book ⟨"BK001", "u", "b", "S002", 12, "used"⟩),
        Op.add (Item.book ⟨"BK002", "v", "c", "S001", 15, "used"⟩),
        Op.remove "BK001"])) ∧
    (∀ items it, homog Kind.book items → kindOf it = Kind.book → distinctIds items →
      homog Kind.book (add items it).2 ∧ distinctIds (add items it).2) ∧
    (∀ items item_id, homog Kind.book items → distinctIds items →
      homog Kind.book (remove item_id items).2 ∧ distinctIds (remove item_id items).2) :=
  C9_distinct_ids Kind.book
    [Op.add (Item.book ⟨"BK001", "t", "a", "S001", 10, "new"⟩),
     Op.add (Item.book ⟨"BK001", "u", "b", "S002", 12, "used"⟩),
     Op.add (Item.book ⟨"BK002", "v", "c", "S001", 15, "used"⟩),
     Op.remove "BK001"] (by decide)

end Campus
